import Mathlib

/-!
Verification of the two scripts of the `github-issue-finder` repository:
`filter_and_assign.py` (query, row parser, classifier, reporter) and
`assign_best_issues.py` (the disabled auto-assignment placeholder).

Python strings are embedded as `List Char`; the scripts only ever handle
ASCII text, so ASCII models of `str.strip`, `str.lower` and substring
membership (`in`) are faithful on every input the scripts see.

A central fact about the source: in `filter_and_assign.py` the variable
`score` holds the raw text `parts[3].strip()` (a `str`), and rule 2 of the
classifier evaluates `score < 0.80`.  In Python 3 an order comparison
between `str` and `float` raises `TypeError`, so whenever a row reaches
rule 2 with `comments == "0"` the whole script aborts.  The classifier is
therefore embedded as a function into `Option Verdict`, where `none`
stands for that uncaught `TypeError`.
-/

/-- ASCII model of Python's whitespace test used by `str.strip`. -/
def pyIsSpace (c : Char) : Bool :=
  c = ' ' || c = '\t' || c = '\n' || c = '\r' || c = '\x0b' || c = '\x0c'

/-- Model of Python's `str.strip()`: drop whitespace from both ends. -/
def pyStrip (s : List Char) : List Char :=
  ((s.dropWhile pyIsSpace).reverse.dropWhile pyIsSpace).reverse

/-- Model of Python's `needle in hay` substring test on strings. -/
def pyIn (needle hay : List Char) : Bool :=
  decide (needle <:+: hay)

/-- Model of Python's `str.lower()` (ASCII case folding). -/
def pyLower (s : List Char) : List Char :=
  s.map Char.toLower

/-- One parsed result row of `filter_and_assign.py` (the fields bound at
lines 64-72 of the source: `issue_id`, `title`, `score`, `comments`,
`category`, `labels`).  `score` and `comments` are kept as raw text,
exactly as in the source; `labels` is the lower-cased label blob. -/
structure Row where
  issue_id : List Char
  title : List Char
  score : List Char
  comments : List Char
  category : List Char
  labels : List Char
deriving DecidableEq, Repr

/-- Verdict of the classifier: a good issue, or a skipped issue tagged
with a reason string. -/
inductive Verdict
  | good : Verdict
  | skip : List Char → Verdict
deriving DecidableEq, Repr

def needsMoreInfoStr : List Char := "needs more info".toList

def questionStr : List Char := "question".toList

def helpStr : List Char := "help".toList

def zeroStr : List Char := "0".toList

def needsMoreInfoReason : List Char := "Needs more info".toList

def lowScoreReason : List Char := "Low score, no activity".toList

def likelyQuestionReason : List Char := "Likely a question".toList

/-- The classifier of `filter_and_assign.py`, lines 74-90, applied to one
parsed row.  `none` models the `TypeError` raised by `score < 0.80`
(a `str` compared against a `float`), which is reached exactly when rule 1
did not match and `comments == "0"`; the `and` of rule 2 short-circuits,
so the comparison is not evaluated when `comments != "0"`. -/
def classifyRow (r : Row) : Option Verdict :=
  if pyIn needsMoreInfoStr r.labels
      || pyIn questionStr (pyLower r.title)
      || pyIn helpStr (pyLower r.title) then
    some (Verdict.skip needsMoreInfoReason)
  else if r.comments = zeroStr then
    none
  else if pyIn questionStr ((pyLower r.title).take 20) then
    some (Verdict.skip likelyQuestionReason)
  else
    some Verdict.good

/-- One iteration of the parsing part of the loop (lines 58-72): a blank
line is skipped, a line splitting into fewer than 5 pipe-delimited fields
is dropped, and otherwise the fields are extracted by position. -/
def parseLine (line : List Char) : Option Row :=
  if pyStrip line = [] then
    none
  else
    let parts := line.splitOn '|'
    if 5 ≤ parts.length then
      let labels_str := if 6 < parts.length then pyStrip (parts.getD 6 []) else []
      some
        { issue_id := pyStrip (parts.getD 1 [])
          title := pyStrip ((parts.getD 2 []).take 50)
          score := pyStrip (parts.getD 3 [])
          comments := pyStrip (parts.getD 4 [])
          category := if 5 < parts.length then pyStrip (parts.getD 5 []) else []
          labels := if labels_str.isEmpty then [] else pyLower labels_str }
    else
      none

/-- The line list fed to the loop (line 51 of the source):
`result.stdout.strip().split("\n")[2:-1]`. -/
def linesOf (stdout : List Char) : List (List Char) :=
  ((((pyStrip stdout).splitOn '\n').drop 2)).dropLast

/-- The rows that survive parsing, in input order. -/
def parsedRows (ls : List (List Char)) : List Row :=
  ls.filterMap parseLine

/-- A record of `good_issues`: `(issue_id, score, comments, category)`. -/
abbrev GoodRec := List Char × List Char × List Char × List Char

/-- A record of `bad_issues`: `(issue_id, score, reason)`. -/
abbrev BadRec := List Char × List Char × List Char

def goodRecOf (r : Row) : GoodRec :=
  (r.issue_id, r.score, r.comments, r.category)

/-- The classification loop (lines 58-96): each parsed row is appended to
`good_issues` or `bad_issues` according to its verdict; `none` models the
run aborting with the rule-2 `TypeError` before the report is printed. -/
def processLines (ls : List (List Char)) :
    Option (List GoodRec × List BadRec) :=
  match ls with
  | [] => some ([], [])
  | l :: rest =>
    match parseLine l with
    | none => processLines rest
    | some r =>
      match classifyRow r with
      | none => none
      | some (Verdict.skip reason) =>
        match processLines rest with
        | none => none
        | some (g, b) => some (g, (r.issue_id, r.score, reason) :: b)
      | some Verdict.good =>
        match processLines rest with
        | none => none
        | some (g, b) => some (goodRecOf r :: g, b)

/-- The whole filtering pipeline on the captured database output. -/
def runFilter (stdout : List Char) : Option (List GoodRec × List BadRec) :=
  processLines (linesOf stdout)

/-- The skip-summary slice of the reporter (line 106): `bad_issues[:10]`. -/
def skipSummary (bad : List BadRec) : List BadRec :=
  bad.take 10

/-! ## The disabled script `assign_best_issues.py`

Its `main` builds a fixed message with `textwrap.dedent(...).strip()`,
writes `message + "\n"` to `sys.stderr` and returns `1`, which
`sys.exit(main())` turns into the process exit status.  `textwrap.dedent`
is embedded following CPython: whitespace-only lines are emptied, the
longest common space/tab indent of the remaining nonempty lines is
computed, and that margin is removed from every line carrying it. -/

def isSpaceTab (c : Char) : Bool :=
  c = ' ' || c = '\t'

/-- CPython `textwrap.dedent` step 1: a nonempty line made only of spaces
and tabs is normalized to the empty line. -/
def dedentClean (l : List Char) : List Char :=
  if l.isEmpty then l else if l.all isSpaceTab then [] else l

/-- Longest common prefix of two character lists (the margin join of
`textwrap.dedent`). -/
def commonIndent : List Char → List Char → List Char
  | x :: xs, y :: ys => if x = y then x :: commonIndent xs ys else []
  | _, _ => []

/-- The common margin of the lines that have non-whitespace content. -/
def dedentMargin (ls : List (List Char)) : Option (List Char) :=
  ls.foldl
    (fun m l =>
      if (l.dropWhile isSpaceTab).isEmpty then m
      else
        match m with
        | none => some (l.takeWhile isSpaceTab)
        | some p => some (commonIndent p (l.takeWhile isSpaceTab)))
    none

/-- Model of `textwrap.dedent`. -/
def dedent (s : List Char) : List Char :=
  let ls := (s.splitOn '\n').map dedentClean
  let margin := (dedentMargin ls).getD []
  List.intercalate ['\n']
    (ls.map (fun l => if margin.isPrefixOf l then l.drop margin.length else l))

/-- The triple-quoted literal passed to `textwrap.dedent` in
`assign_best_issues.py`, lines 19-24. -/
def rawMessage : List Char :=
  ("\n        Issue auto-assignment has been disabled to protect upstream projects and\n        credentials. Replace this script with an audited workflow that requires\n        human confirmation before reassigning issues.\n        ").toList

/-- Observable outcome of one process run: the text written to the error
stream and the exit status. -/
structure ScriptRun where
  stderrText : List Char
  exitCode : Nat
deriving DecidableEq, Repr

/-- `assign_best_issues.py` as a whole: `main` writes
`dedent(raw).strip() + "\n"` to stderr and `sys.exit` propagates its
return value `1`.  The script reads no input and touches nothing else. -/
def assignBestIssuesRun : ScriptRun :=
  { stderrText := pyStrip (dedent rawMessage) ++ ['\n']
    exitCode := 1 }

/-! ## Concrete demonstration data -/

/-- A psql-style row line whose parsed row is classified good. -/
def demoGoodLine : List Char :=
  " | 7 | Add retry logic to client | 0.85 | 3 | core | bug,good-first-issue".toList

/-- A psql-style row line whose parsed row matches rule 1 via `help`. -/
def demoSkipLine : List Char :=
  " | 2 | Help needed with setup | 0.9 | 5 | docs | ".toList

/-- A psql-style row line with `comments == "0"` and no rule-1 match: the
row on which rule 2 evaluates `score < 0.80` and the script aborts. -/
def demoCrashLine : List Char :=
  " | 9 | Fix null pointer in parser | 0.76 | 0 | core | bug".toList

/-- The parsed row of `demoGoodLine`. -/
def demoGoodRow : Row :=
  ⟨"7".toList, "Add retry logic to client".toList, "0.85".toList,
    "3".toList, "core".toList, "bug,good-first-issue".toList⟩

/-- A row carrying the `needs more info` label. -/
def demoLabeledRow : Row :=
  ⟨"4".toList, "Improve logging".toList, "0.9".toList, "12".toList,
    "core".toList, "needs more info,bug".toList⟩

/-! ## Theorems -/

/-- `t` occurring inside a `take`-truncation of `l` occurs inside `l`. -/
theorem pyIn_take {t l : List Char} {n : Nat}
    (h : pyIn t (l.take n) = true) : pyIn t l = true := by
  have h' : t <:+: l.take n := by simpa [pyIn] using h
  have hl : t <:+: l := by
    rcases h' with ⟨s, u, hsu⟩
    refine ⟨s, u ++ l.drop n, ?_⟩
    conv_rhs => rw [← List.take_append_drop n l]
    rw [← hsu]
    simp
  simpa [pyIn] using hl

/-- Claim C2: a parsed row whose (lower-cased) labels blob contains
`needs more info`, or whose lower-cased title contains `question` or
`help`, is always skipped with reason `Needs more info`, whatever its
score or comment count. -/
theorem rule1_skip_needs_more_info (r : Row)
    (h : needsMoreInfoStr <:+: r.labels ∨
      questionStr <:+: pyLower r.title ∨ helpStr <:+: pyLower r.title) :
    classifyRow r = some (Verdict.skip needsMoreInfoReason) := by
  rcases h with h | h | h <;> simp [classifyRow, pyIn, h]

theorem rule1_skip_needs_more_info_witness :
    (needsMoreInfoStr <:+: demoLabeledRow.labels) ∧
      classifyRow demoLabeledRow = some (Verdict.skip needsMoreInfoReason) :=
  ⟨by decide, rule1_skip_needs_more_info demoLabeledRow (Or.inl (by decide))⟩

/-- Claim C3: rule 3 is dead logic: no row is ever skipped with reason
`Likely a question`, since `question` occurring in the first 20 characters
of the lower-cased title implies it occurs in the whole lower-cased title,
which rule 1 already catches. -/
theorem rule3_unreachable (r : Row) :
    classifyRow r ≠ some (Verdict.skip likelyQuestionReason) := by
  unfold classifyRow
  by_cases h1 : (pyIn needsMoreInfoStr r.labels
      || pyIn questionStr (pyLower r.title)
      || pyIn helpStr (pyLower r.title)) = true
  · rw [if_pos h1]
    intro hc
    have : needsMoreInfoReason = likelyQuestionReason := by
      simpa using hc
    exact absurd this (by decide)
  · rw [if_neg h1]
    by_cases h0 : r.comments = zeroStr
    · simp [h0]
    · rw [if_neg h0]
      by_cases h3 : pyIn questionStr ((pyLower r.title).take 20) = true
      · have hq : pyIn questionStr (pyLower r.title) = true := pyIn_take h3
        simp [hq] at h1
      · simp [h3]

theorem rule3_unreachable_witness :
    classifyRow demoGoodRow ≠ some (Verdict.skip likelyQuestionReason) :=
  rule3_unreachable demoGoodRow

/-- Claim C1 (refuted by the code): the spec says rule 2 compares the
textual score numerically against 0.80 and skips with
`Low score, no activity`.  On the concrete spec example (score `0.76`,
comments `0`, labels `bug`) the program instead aborts: `score` is a
`str`, and `score < 0.80` raises `TypeError` in Python 3.  The verdict is
`none` (uncaught exception), never `some (skip lowScoreReason)`. -/
theorem classifier_rule2_type_error :
    classifyRow ⟨"101".toList, "Fix null pointer in parser".toList,
        "0.76".toList, "0".toList, "core".toList, "bug".toList⟩ = none ∧
      ∀ r : Row, classifyRow r ≠ some (Verdict.skip lowScoreReason) := by
  refine ⟨by decide, fun r => ?_⟩
  unfold classifyRow
  by_cases h1 : (pyIn needsMoreInfoStr r.labels
      || pyIn questionStr (pyLower r.title)
      || pyIn helpStr (pyLower r.title)) = true
  · rw [if_pos h1]
    intro hc
    have : needsMoreInfoReason = lowScoreReason := by simpa using hc
    exact absurd this (by decide)
  · rw [if_neg h1]
    by_cases h0 : r.comments = zeroStr
    · simp [h0]
    · rw [if_neg h0]
      by_cases h3 : pyIn questionStr ((pyLower r.title).take 20) = true
      · rw [if_pos h3]
        intro hc
        have : likelyQuestionReason = lowScoreReason := by simpa using hc
        exact absurd this (by decide)
      · simp [h3]

/-- Claim C4 (refuted by the code): a single well-formed line with
`comments == "0"` and no rule-1 match yields one parsed row, yet the loop
aborts with the rule-2 `TypeError` before the row is appended to either
list, so no good/skip counts exist for that run.  On runs free of that
abort the counts do add up, shown here on a two-row input. -/
theorem counts_invariant_type_error :
    (parsedRows [demoCrashLine]).length = 1 ∧
      processLines [demoCrashLine] = none ∧
      (parsedRows [demoGoodLine, demoSkipLine]).length = 2 ∧
      (processLines [demoGoodLine, demoSkipLine]).map
          (fun p => p.1.length + p.2.length) = some 2 := by
  refine ⟨by decide, by rfl, by decide, by rfl⟩

/-- Claim C6 (refuted by the code): the spec example row (comments `3`)
is indeed classified good, but the universal statement fails: a row
matched by none of the three rules numerically (score `0.85` is not below
0.80) whose comments field is `"0"` makes the program abort with the
rule-2 `TypeError` instead of being marked good. -/
theorem default_good_and_type_error :
    classifyRow demoGoodRow = some Verdict.good ∧
      classifyRow ⟨"8".toList, "Fix null pointer in parser".toList,
        "0.85".toList, "0".toList, "core".toList, "bug".toList⟩ = none := by
  refine ⟨by decide, by decide⟩

/-- Claim C8: the skip summary prints at most the first 10 skipped
records: the slice is no longer than 10, is a prefix of the skip list,
and has length exactly 10 whenever more than 10 rows were skipped. -/
theorem skip_summary_at_most_ten (bad : List BadRec) :
    (skipSummary bad).length ≤ 10 ∧ skipSummary bad <+: bad ∧
      (10 < bad.length → (skipSummary bad).length = 10) := by
  refine ⟨?_, ⟨bad.drop 10, List.take_append_drop 10 bad⟩, fun h => ?_⟩
  · simp [skipSummary]
  · simp [skipSummary]
    omega

theorem skip_summary_at_most_ten_witness :
    (skipSummary (List.replicate 11 (([], [], []) : BadRec))).length = 10 ∧
      skipSummary (List.replicate 11 (([], [], []) : BadRec)) <+:
        List.replicate 11 (([], [], []) : BadRec) :=
  ⟨(skip_summary_at_most_ten (List.replicate 11 ([], [], []))).2.2 (by decide),
    (skip_summary_at_most_ten (List.replicate 11 ([], [], []))).2.1⟩

set_option maxRecDepth 8192 in
/-- Claim C9: the disabled assignment script always terminates with exit
status 1 and writes exactly the fixed dedented warning (plus a trailing
newline) to the error stream; the model takes no input and records no
other effect. -/
theorem disabled_script_behavior :
    assignBestIssuesRun.exitCode = 1 ∧
      assignBestIssuesRun.stderrText =
        ("Issue auto-assignment has been disabled to protect upstream projects and\ncredentials. Replace this script with an audited workflow that requires\nhuman confirmation before reassigning issues.\n").toList := by
  exact ⟨rfl, by decide⟩

/-- `Row` with only the `score` field replaced. -/
def setScore (r : Row) (s : List Char) : Row :=
  ⟨r.issue_id, r.title, s, r.comments, r.category, r.labels⟩

/-- Claim C10: for rows not matching rule 1 whose comments field is not
`"0"`, the classifier never inspects the score: two rows identical except
for their score field receive the same (non-crashing) verdict and reason,
because rule 2's conjunction short-circuits on the comments test. -/
theorem score_not_inspected_when_comments_nonzero (r : Row)
    (s₁ s₂ : List Char)
    (h1 : ¬ (needsMoreInfoStr <:+: r.labels ∨
      questionStr <:+: pyLower r.title ∨ helpStr <:+: pyLower r.title))
    (h0 : r.comments ≠ zeroStr) :
    classifyRow (setScore r s₁) = classifyRow (setScore r s₂) ∧
      (classifyRow (setScore r s₁)).isSome = true := by
  push_neg at h1
  obtain ⟨ha, hb, hc⟩ := h1
  constructor
  · simp [classifyRow, setScore]
  · have hcond : (pyIn needsMoreInfoStr r.labels
        || pyIn questionStr (pyLower r.title)
        || pyIn helpStr (pyLower r.title)) = false := by
      simp [pyIn, ha, hb, hc]
    simp only [classifyRow, setScore]
    rw [if_neg (by simp [hcond]), if_neg h0]
    by_cases h3 : pyIn questionStr ((pyLower r.title).take 20) = true
    · rw [if_pos h3]
      rfl
    · rw [if_neg h3]
      rfl

/-- Claim C5: the reconstruction of the row parser: the captured text is
stripped, split into lines, and shorn of its first two lines and last
line; a blank line or a line with fewer than 5 pipe-delimited fields
yields no row; otherwise the fields come from fixed positions, with the
title truncated to 50 characters then trimmed, score and comments kept as
text, category and labels defaulting to empty, and labels lower-cased. -/
theorem row_parsing_fields :
    (∀ stdout : List Char,
        linesOf stdout = (((pyStrip stdout).splitOn '\n').drop 2).dropLast)
  ∧ (∀ line : List Char, pyStrip line = [] → parseLine line = none)
  ∧ (∀ line : List Char, (line.splitOn '|').length < 5 →
        parseLine line = none)
  ∧ (∀ line : List Char, pyStrip line ≠ [] →
        5 ≤ (line.splitOn '|').length →
        parseLine line = some
          { issue_id := pyStrip ((line.splitOn '|').getD 1 [])
            title := pyStrip (((line.splitOn '|').getD 2 []).take 50)
            score := pyStrip ((line.splitOn '|').getD 3 [])
            comments := pyStrip ((line.splitOn '|').getD 4 [])
            category := if 5 < (line.splitOn '|').length then
                pyStrip ((line.splitOn '|').getD 5 []) else []
            labels := pyLower (if 6 < (line.splitOn '|').length then
                pyStrip ((line.splitOn '|').getD 6 []) else []) }) := by
  refine ⟨fun _ => rfl, fun line h => by simp [parseLine, h],
    fun line h => ?_, fun line h1 h2 => ?_⟩
  · by_cases hb : pyStrip line = []
    · simp [parseLine, hb]
    · have h5 : ¬ 5 ≤ (line.splitOn '|').length := by omega
      simp [parseLine, hb, h5]
  · have hemp : ∀ l : List Char,
        (if l.isEmpty then ([] : List Char) else pyLower l) = pyLower l := by
      intro l
      cases l <;> simp [pyLower]
    simp [parseLine, h1, h2, hemp]
    intro h6
    by_cases h7 : 6 < (line.splitOn '|').length
    · have h8 := h6 h7
      rw [List.getElem?_eq_getElem h7] at h8
      simp only [Option.getD_some] at h8
      simp [h7, h8, pyLower]
    · simp [h7, pyLower]

theorem row_parsing_fields_witness :
    parseLine demoSkipLine = some
      ⟨"2".toList, "Help needed with setup".toList, "0.9".toList,
        "5".toList, "docs".toList, []⟩ := by
  rw [row_parsing_fields.2.2.2 demoSkipLine (by decide) (by decide)]
  decide

/-- The contribution of one row to the good list: `some` of its
`good_issues` record when its verdict is good, `none` otherwise. -/
def goodFilter (r : Row) : Option GoodRec :=
  match classifyRow r with
  | some Verdict.good => some (goodRecOf r)
  | _ => none

/-- Claim C7: on a run that completes without the rule-2 `TypeError`, the
good list is exactly the subsequence of parsed rows classified good, in
their original input order. -/
theorem good_list_order (ls : List (List Char)) (g : List GoodRec)
    (b : List BadRec) (h : processLines ls = some (g, b)) :
    g = (parsedRows ls).filterMap goodFilter := by
  induction ls generalizing g b with
  | nil =>
    simp only [processLines, Option.some.injEq, Prod.mk.injEq] at h
    rw [parsedRows]
    simp only [List.filterMap_nil]
    exact h.1.symm
  | cons l rest ih =>
    simp only [processLines] at h
    cases hp : parseLine l with
    | none =>
      simp only [hp] at h
      have hih := ih g b h
      rw [parsedRows] at hih
      simp only [parsedRows, List.filterMap_cons, hp]
      exact hih
    | some r =>
      simp only [hp] at h
      cases hc : classifyRow r with
      | none => simp [hc] at h
      | some v =>
        simp only [hc] at h
        cases v with
        | skip reason =>
          cases hr : processLines rest with
          | none => simp [hr] at h
          | some gb =>
            obtain ⟨g', b'⟩ := gb
            simp only [hr, Option.some.injEq, Prod.mk.injEq] at h
            obtain ⟨hg, hb⟩ := h
            subst hg
            have hgf : goodFilter r = none := by simp [goodFilter, hc]
            have hih := ih g' b' hr
            rw [parsedRows] at hih
            simp only [parsedRows, List.filterMap_cons, hp, hgf]
            exact hih
        | good =>
          cases hr : processLines rest with
          | none => simp [hr] at h
          | some gb =>
            obtain ⟨g', b'⟩ := gb
            simp only [hr, Option.some.injEq, Prod.mk.injEq] at h
            obtain ⟨hg, hb⟩ := h
            subst hg
            have hgf : goodFilter r = some (goodRecOf r) := by
              simp [goodFilter, hc]
            have hih := ih g' b' hr
            rw [parsedRows] at hih
            simp only [parsedRows, List.filterMap_cons, hp, hgf,
              List.cons.injEq]
            exact ⟨trivial, hih⟩

theorem good_list_order_witness :
    processLines [demoSkipLine, demoGoodLine] =
        some ([goodRecOf demoGoodRow],
          [("2".toList, "0.9".toList, needsMoreInfoReason)]) ∧
      [goodRecOf demoGoodRow] =
        (parsedRows [demoSkipLine, demoGoodLine]).filterMap goodFilter :=
  ⟨by rfl,
    good_list_order [demoSkipLine, demoGoodLine] [goodRecOf demoGoodRow]
      [("2".toList, "0.9".toList, needsMoreInfoReason)] (by rfl)⟩

theorem score_not_inspected_witness :
    classifyRow (setScore demoGoodRow ("0.1").toList) =
        classifyRow (setScore demoGoodRow ("0.99").toList) ∧
      (classifyRow (setScore demoGoodRow ("0.1").toList)).isSome = true :=
  score_not_inspected_when_comments_nonzero demoGoodRow
    ("0.1").toList ("0.99").toList (by decide) (by decide)
